import Mathlib

/-!
Shallow embedding of `src/compare_dir/directory_comparer.py`.

The embedding is pure and executable:

* `FileData` stands for what the filesystem reports about one regular file
  (`st_mtime`, `st_size`, and the byte content).  A scanned tree
  (`dict[str, Path]` plus the files behind the paths) becomes an association
  list `List (String × FileData)`; Python `dict` lookups become `List.lookup`.
* Machine floats (`st_mtime`) are modelled as integers: `_compare` only uses
  the order on timestamps, so any linearly ordered carrier is faithful.
* The thread pool is replaced by a scheduling oracle `st : Nat → Nat → FutState`
  giving, for each drain step and each submitted future, the state a
  `concurrent.futures.Future` can be observed in (`pending`, `running`,
  `done`).  Worker-pool size and completion timing only influence the program
  through these observations, so quantifying over all oracles covers every
  pool size and schedule.  Since `_compare_file_pair` is deterministic, a
  queued future carries its eventual result.
* `yield_from_queue` additionally returns a `Bool` recording whether
  `Future.result()` was invoked on a future that was not yet done, i.e.
  whether the dispatching thread blocked on an unfinished comparison.
* A variant pipeline (`iter_exc`) makes the exception channel of the workers
  explicit: `Path.stat()` raises `OSError` when a file vanished between scan
  and comparison, the `Future` stores the exception, and `Future.result()`
  re-raises it inside `yield_from_queue`, aborting the generator.
-/

/-- Lexicographic strict comparison of two character lists by Unicode code
point, the order Python string comparison (and hence `sorted`) uses. -/
def charsLtb : List Char → List Char → Bool
  | [], [] => false
  | [], _ :: _ => true
  | _ :: _, [] => false
  | c :: cs, d :: ds =>
    if c < d then true
    else if d < c then false
    else charsLtb cs ds

/-- Boolean `a <= b` on strings, as the negation of strict `b < a`. -/
def strLe (a b : String) : Bool := !(charsLtb b.data a.data)

/-- Propositional form of `strLe`, used as the sorting relation. -/
def strLeProp (a b : String) : Prop := strLe a b = true

instance : DecidableRel strLeProp := fun _ _ => inferInstanceAs (Decidable (_ = true))

/-- Stat data and content of one regular file: modification time (modelled as
an integer timestamp), size in bytes, and full byte content. -/
structure FileData where
  mtime : Int
  size : Int
  content : List Nat
  deriving DecidableEq, Inhabited

/-- Embeds class `FileComparisonResult` (source lines 13-28): Python `None`
becomes `none`, the classification constants stay the integers 1, 2, 3. -/
structure FileComparisonResult where
  relative_path : String
  classification : Nat
  modified_time_comparison : Option Int := none
  size_comparison : Option Int := none
  is_content_same : Option Bool := none
  deriving DecidableEq, Inhabited

def FileComparisonResult.ONLY_IN_DIR1 : Nat := 1

def FileComparisonResult.ONLY_IN_DIR2 : Nat := 2

def FileComparisonResult.IN_BOTH : Nat := 3

/-- Embeds `FileComparisonResult.is_identical` (source lines 30-35). -/
def FileComparisonResult.is_identical (r : FileComparisonResult) : Bool :=
  decide (r.classification = FileComparisonResult.IN_BOTH) &&
  decide (r.modified_time_comparison = some 0) &&
  decide (r.size_comparison = some 0) &&
  decide (r.is_content_same = some true)

/-- Embeds `ComparisonSummary.__init__` (source lines 75-82): all counters 0. -/
structure ComparisonSummary where
  in_both : Nat := 0
  only_in_dir1 : Nat := 0
  only_in_dir2 : Nat := 0
  dir1_newer : Nat := 0
  dir2_newer : Nat := 0
  same_time_diff_size : Nat := 0
  same_time_size_diff_content : Nat := 0
  deriving DecidableEq, Inhabited

def ComparisonSummary.init : ComparisonSummary := {}

/-- Embeds `ComparisonSummary.update` (source lines 84-99).  Note that in
Python `None != 0` is `True`, so the `size_comparison != 0` guard is
`size_comparison ≠ some 0` here. -/
def ComparisonSummary.update (s : ComparisonSummary) (result : FileComparisonResult) :
    ComparisonSummary :=
  if result.classification = FileComparisonResult.ONLY_IN_DIR1 then
    { s with only_in_dir1 := s.only_in_dir1 + 1 }
  else if result.classification = FileComparisonResult.ONLY_IN_DIR2 then
    { s with only_in_dir2 := s.only_in_dir2 + 1 }
  else if result.classification = FileComparisonResult.IN_BOTH then
    let s := { s with in_both := s.in_both + 1 }
    if result.modified_time_comparison = some 1 then
      { s with dir1_newer := s.dir1_newer + 1 }
    else if result.modified_time_comparison = some (-1) then
      { s with dir2_newer := s.dir2_newer + 1 }
    else if result.size_comparison ≠ some 0 then
      { s with same_time_diff_size := s.same_time_diff_size + 1 }
    else if result.is_content_same = some false then
      { s with same_time_size_diff_content := s.same_time_size_diff_content + 1 }
    else s
  else s

/-- Embeds the static method `DirectoryComparer._compare` (source lines
134-141). -/
def DirectoryComparer._compare (value1 value2 : Int) : Int :=
  if value1 > value2 then 1
  else if value2 > value1 then -1
  else 0

/-- Embeds `DirectoryComparer._compare_file_pair` (source lines 158-176) on
the two files behind `dir1_files[rel_path]` and `dir2_files[rel_path]`.
`filecmp.cmp(file1, file2, shallow=False)` on two regular files of equal size
is byte-for-byte content equality. -/
def DirectoryComparer._compare_file_pair (rel_path : String) (file1 file2 : FileData) :
    FileComparisonResult :=
  let modified_time_comparison := DirectoryComparer._compare file1.mtime file2.mtime
  let size_comparison := DirectoryComparer._compare file1.size file2.size
  { relative_path := rel_path
    classification := FileComparisonResult.IN_BOTH
    modified_time_comparison := some modified_time_comparison
    size_comparison := some size_comparison
    is_content_same :=
      if size_comparison = 0 then some (decide (file1.content = file2.content)) else none }

/-- Observable state of a `concurrent.futures.Future`: `pending` (submitted,
not yet picked up by a worker; `running()` and `done()` both return `False`),
`running` (`running()` returns `True`), `done` (`done()` returns `True`,
`result()` returns immediately). -/
inductive FutState where
  | pending
  | running
  | done
  deriving DecidableEq, Inhabited

/-- One slot of `pending_queue` (source lines 190-204): a ready
`FileComparisonResult`, or a future submitted to the pool.  The future
carries its (deterministic) eventual result together with an identifier the
scheduling oracle uses to report its state. -/
inductive QueueItem where
  | ready (r : FileComparisonResult)
  | fut (id : Nat) (r : FileComparisonResult)
  deriving DecidableEq, Inhabited

/-- Result held by a slot, as `Future.result()` would eventually deliver it. -/
def QueueItem.result : QueueItem → FileComparisonResult
  | .ready r => r
  | .fut _ r => r

/-- Embeds the static method `DirectoryComparer.yield_from_queue` (source
lines 213-228).  `st` reports each future's state.  Returns the yielded
results, the remaining queue, and whether `result()` was called on a future
that was not yet done, i.e. whether the call blocked on an unfinished
comparison. -/
def DirectoryComparer.yield_from_queue (st : Nat → FutState) (stop_at_running_task : Bool) :
    List QueueItem → List FileComparisonResult × List QueueItem × Bool
  | [] => ([], [], false)
  | first_item :: rest =>
    match first_item with
    | QueueItem.fut id r =>
      if stop_at_running_task && (st id == FutState.running) then
        ([], first_item :: rest, false)
      else
        let out := DirectoryComparer.yield_from_queue st stop_at_running_task rest
        (r :: out.1, out.2.1, ((st id != FutState.done) || out.2.2))
    | QueueItem.ready r =>
      let out := DirectoryComparer.yield_from_queue st stop_at_running_task rest
      (r :: out.1, out.2.1, out.2.2)

/-- Embeds the body of the per-path dispatch in `DirectoryComparer.__iter__`
(source lines 194-204): build the slot appended for `rel_path`. -/
def DirectoryComparer.mkItem (dir1_files dir2_files : List (String × FileData)) (id : Nat)
    (rel_path : String) : QueueItem :=
  let in_dir1 := (List.lookup rel_path dir1_files).isSome
  let in_dir2 := (List.lookup rel_path dir2_files).isSome
  if in_dir1 && !in_dir2 then
    QueueItem.ready { relative_path := rel_path, classification := FileComparisonResult.ONLY_IN_DIR1 }
  else if !in_dir1 && in_dir2 then
    QueueItem.ready { relative_path := rel_path, classification := FileComparisonResult.ONLY_IN_DIR2 }
  else
    QueueItem.fut id (DirectoryComparer._compare_file_pair rel_path
      ((List.lookup rel_path dir1_files).getD default)
      ((List.lookup rel_path dir2_files).getD default))

/-- Record a path of the sorted union is dispatched with (the dict lookups in
`__iter__` and `_compare_file_pair`; the future identifier does not influence
the record). -/
def DirectoryComparer.recordFor (dir1_files dir2_files : List (String × FileData))
    (rel_path : String) : FileComparisonResult :=
  (DirectoryComparer.mkItem dir1_files dir2_files 0 rel_path).result

/-- Embeds `sorted(set(dir1_files.keys()) | set(dir2_files.keys()))` (source
line 189): the deduplicated union of the key lists, sorted lexicographically. -/
def sortedUnion (keys1 keys2 : List String) : List String :=
  List.insertionSort strLeProp ((keys1 ++ keys2).dedup)

/-- Embeds the main loop of `DirectoryComparer.__iter__` (source lines
194-208): walk the sorted union, append a slot per path, and after each
append drain the queue head with `stop_at_running_task=True`. -/
def DirectoryComparer.iterLoop (st : Nat → Nat → FutState)
    (dir1_files dir2_files : List (String × FileData)) :
    List String → Nat → List QueueItem → List FileComparisonResult × List QueueItem
  | [], _, pending_queue => ([], pending_queue)
  | rel_path :: rest, step, pending_queue =>
    let d := DirectoryComparer.yield_from_queue (st step) true
      (pending_queue ++ [DirectoryComparer.mkItem dir1_files dir2_files step rel_path])
    let r := DirectoryComparer.iterLoop st dir1_files dir2_files rest (step + 1) d.2.1
    (d.1 ++ r.1, r.2)

/-- Embeds `DirectoryComparer.__iter__` (source lines 178-211): the per-path
dispatch loop followed by the final drain with `stop_at_running_task=False`. -/
def DirectoryComparer.iter (dir1_files dir2_files : List (String × FileData))
    (st : Nat → Nat → FutState) : List FileComparisonResult :=
  let all_files := sortedUnion (dir1_files.map Prod.fst) (dir2_files.map Prod.fst)
  let r := DirectoryComparer.iterLoop st dir1_files dir2_files all_files 0 []
  r.1 ++ (DirectoryComparer.yield_from_queue (st all_files.length) false r.2).1

/-- Summary resulting from feeding every record of a run to the accumulator
once, as the consumer loop in `main` does (source lines 261-262). -/
def summaryOf (records : List FileComparisonResult) : ComparisonSummary :=
  records.foldl ComparisonSummary.update ComparisonSummary.init

mutual
/-- Directory tree as seen by `os.walk`: a directory holds an ordered listing
of entries, each a regular file (with its data) or a subdirectory. -/
inductive FSTree where
  | node (entries : FSEntries)
/-- Entry listing of one directory. -/
inductive FSEntries where
  | nil
  | file (filename : String) (data : FileData) (rest : FSEntries)
  | dir (dirname : String) (tree : FSTree) (rest : FSEntries)
end

mutual
/-- Embeds the traversal of `DirectoryComparer._get_files_in_directory`
(source lines 143-156): every regular file reachable by the full recursive
walk, keyed by its path relative to the root (as the list of path components
that `full_path.relative_to(base_directory)` joins with the separator).  No
entry is filtered, so hidden files are included and directories never appear
as keys.  `walkEntries` prefixes the files found under a subdirectory with
that subdirectory's name. -/
def walkFiles : FSTree → List (List String × FileData)
  | .node entries => walkEntries entries
/-- Files reachable from a directory listing, keyed relative to the listing. -/
def walkEntries : FSEntries → List (List String × FileData)
  | .nil => []
  | .file filename data rest => ([filename], data) :: walkEntries rest
  | .dir dirname tree rest =>
    (walkFiles tree).map (fun pf => (dirname :: pf.1, pf.2)) ++ walkEntries rest
end

mutual
/-- Modelled from the spec's scanner contract, for comparison with
`walkFiles`: a regular file with data `d` is reachable at relative path `p`
by full recursive traversal of the tree. -/
def reachableT : FSTree → List String → FileData → Prop
  | .node entries, p, d => reachableE entries p d
/-- Reachability through a directory listing. -/
def reachableE : FSEntries → List String → FileData → Prop
  | .nil, _, _ => False
  | .file filename data rest, p, d => (p = [filename] ∧ d = data) ∨ reachableE rest p d
  | .dir dirname tree rest, p, d =>
    (∃ q, p = dirname :: q ∧ reachableT tree q d) ∨ reachableE rest p d
end

/-- A root path as `main` and the scanner observe it: whether `Path.is_dir()`
holds, whether the directory itself is readable (listable), and the tree
behind it. -/
structure RootDir where
  is_dir : Bool
  readable : Bool
  tree : FSTree

/-- Embeds `DirectoryComparer._get_files_in_directory` (source lines 143-156)
at the root level.  `os.walk` is called with the default `onerror=None`, so a
root whose `scandir` fails (not a directory, or unreadable) produces no
triples at all and the function silently returns an empty dict. -/
def DirectoryComparer._get_files_in_directory (root : RootDir) : List (String × FileData) :=
  if root.is_dir && root.readable then
    (walkFiles root.tree).map (fun pf => (String.intercalate ("/") pf.1, pf.2))
  else []

/-- Outcome of one run of `main` (source lines 230-274) after argument
parsing: either a pre-check failure (an error message is printed and `main`
returns before any comparison), or completion with the emitted record
sequence. -/
inductive MainOutcome where
  | precheckError (which : Nat)
  | completed (records : List FileComparisonResult)
  deriving DecidableEq, Inhabited

def MainOutcome.isPrecheckError : MainOutcome → Bool
  | .precheckError _ => true
  | .completed _ => false

/-- Embeds `main` (source lines 250-262): the `Path.is_dir()` pre-checks on
both roots, then the comparison stream.  `Path.is_dir()` does not require
read permission on the directory itself, so it is the `is_dir` flag alone. -/
def main_model (dir1 dir2 : RootDir) (st : Nat → Nat → FutState) : MainOutcome :=
  if !dir1.is_dir then MainOutcome.precheckError 1
  else if !dir2.is_dir then MainOutcome.precheckError 2
  else MainOutcome.completed (DirectoryComparer.iter
    (DirectoryComparer._get_files_in_directory dir1)
    (DirectoryComparer._get_files_in_directory dir2) st)

/-- Exception a worker can raise: `Path.stat()` (or the content read) raising
`OSError` because the file vanished or became unreadable between scan and
comparison. -/
inductive PyErr where
  | oserror
  deriving DecidableEq, Inhabited

/-- Embeds `DirectoryComparer._compare_file_pair` with its exception channel
explicit: `stat1`/`stat2` are what `Path.stat()` reports at comparison time
(`none` when the call raises `OSError`).  The body has no handler, so the
exception escapes before any comparison field is assigned and is stored in
the future. -/
def DirectoryComparer._compare_file_pair_exc (rel_path : String)
    (stat1 stat2 : Option FileData) : Except PyErr FileComparisonResult :=
  match stat1, stat2 with
  | some file1, some file2 => Except.ok (DirectoryComparer._compare_file_pair rel_path file1 file2)
  | _, _ => Except.error PyErr.oserror

/-- Queue slot of the exception-aware pipeline: the future stores either its
result or the exception raised inside the worker. -/
inductive ExcQueueItem where
  | ready (r : FileComparisonResult)
  | fut (id : Nat) (res : Except PyErr FileComparisonResult)

/-- Embeds `DirectoryComparer.yield_from_queue` with the exception channel
explicit: when the popped future stored an exception, `Future.result()`
re-raises it, the generator aborts, and every remaining slot is abandoned.
Returns the yielded results, the re-raised exception if any, and the
abandoned remainder of the queue. -/
def DirectoryComparer.yield_from_queue_exc (st : Nat → FutState) (stop_at_running_task : Bool) :
    List ExcQueueItem → List FileComparisonResult × Option PyErr × List ExcQueueItem
  | [] => ([], none, [])
  | first_item :: rest =>
    match first_item with
    | ExcQueueItem.fut id res =>
      if stop_at_running_task && (st id == FutState.running) then
        ([], none, first_item :: rest)
      else
        match res with
        | Except.error e => ([], some e, rest)
        | Except.ok r =>
          let out := DirectoryComparer.yield_from_queue_exc st stop_at_running_task rest
          (r :: out.1, out.2.1, out.2.2)
    | ExcQueueItem.ready r =>
      let out := DirectoryComparer.yield_from_queue_exc st stop_at_running_task rest
      (r :: out.1, out.2.1, out.2.2)

/-- Slot appended per path in the exception-aware pipeline: `statNow1` and
`statNow2` are what `Path.stat()` reports at comparison time for the handles
scanned into the two dicts. -/
def DirectoryComparer.mkItemExc (dir1_files dir2_files : List (String × FileData))
    (statNow1 statNow2 : String → Option FileData) (id : Nat) (rel_path : String) : ExcQueueItem :=
  let in_dir1 := (List.lookup rel_path dir1_files).isSome
  let in_dir2 := (List.lookup rel_path dir2_files).isSome
  if in_dir1 && !in_dir2 then
    ExcQueueItem.ready { relative_path := rel_path, classification := FileComparisonResult.ONLY_IN_DIR1 }
  else if !in_dir1 && in_dir2 then
    ExcQueueItem.ready { relative_path := rel_path, classification := FileComparisonResult.ONLY_IN_DIR2 }
  else
    ExcQueueItem.fut id (DirectoryComparer._compare_file_pair_exc rel_path
      (statNow1 rel_path) (statNow2 rel_path))

/-- Main dispatch loop of `__iter__` with the exception channel explicit: an
exception re-raised by a drain propagates out of the generator at once
(Python has no handler around the `yield from`), so no further path is
dispatched. -/
def DirectoryComparer.iterLoopExc (st : Nat → Nat → FutState)
    (dir1_files dir2_files : List (String × FileData))
    (statNow1 statNow2 : String → Option FileData) :
    List String → Nat → List ExcQueueItem → List FileComparisonResult × Option PyErr × List ExcQueueItem
  | [], _, pending_queue => ([], none, pending_queue)
  | rel_path :: rest, step, pending_queue =>
    let d := DirectoryComparer.yield_from_queue_exc (st step) true
      (pending_queue ++ [DirectoryComparer.mkItemExc dir1_files dir2_files statNow1 statNow2 step rel_path])
    match d.2.1 with
    | some e => (d.1, some e, d.2.2)
    | none =>
      let r := DirectoryComparer.iterLoopExc st dir1_files dir2_files statNow1 statNow2 rest
        (step + 1) d.2.2
      (d.1 ++ r.1, r.2.1, r.2.2)

/-- Embeds `DirectoryComparer.__iter__` with the exception channel explicit:
records yielded before the failing slot is drained are delivered, then the
exception aborts the stream (in `main` only `KeyboardInterrupt` is handled,
so it voids the whole run). -/
def DirectoryComparer.iter_exc (dir1_files dir2_files : List (String × FileData))
    (statNow1 statNow2 : String → Option FileData) (st : Nat → Nat → FutState) :
    List FileComparisonResult × Option PyErr :=
  let all_files := sortedUnion (dir1_files.map Prod.fst) (dir2_files.map Prod.fst)
  let r := DirectoryComparer.iterLoopExc st dir1_files dir2_files statNow1 statNow2 all_files 0 []
  match r.2.1 with
  | some e => (r.1, some e)
  | none =>
    let f := DirectoryComparer.yield_from_queue_exc (st all_files.length) false r.2.2
    (r.1 ++ f.1, f.2.1)

/-- Embeds the `max_workers` handling of `DirectoryComparer.__init__` (source
line 118): values not greater than 0 become `None`. -/
def DirectoryComparer.initMaxWorkers (max_workers : Int) : Option Int :=
  if max_workers > 0 then some max_workers else none

/-- Embeds `DirectoryComparer.__enter__` (source lines 120-122): the degree
of parallelism `ThreadPoolExecutor(max_workers=self._max_workers)` ends up
with, where `hostDefault` is the implementation default chosen for
`max_workers=None`. -/
def DirectoryComparer.executorWorkers (max_workers_attr : Option Int) (hostDefault : Int) : Int :=
  match max_workers_attr with
  | none => hostDefault
  | some n => n

/-- Record invariants from the spec's data model: a `Both` record has both
stat comparisons set and carries a content verdict exactly when the sizes
were equal; a one-sided record has all three comparison fields unset. -/
def recordInvariant (r : FileComparisonResult) : Prop :=
  (r.classification = FileComparisonResult.IN_BOTH →
    r.modified_time_comparison.isSome = true ∧ r.size_comparison.isSome = true ∧
      (r.is_content_same.isSome = true ↔ r.size_comparison = some 0)) ∧
  ((r.classification = FileComparisonResult.ONLY_IN_DIR1 ∨
      r.classification = FileComparisonResult.ONLY_IN_DIR2) →
    r.modified_time_comparison = none ∧ r.size_comparison = none ∧ r.is_content_same = none)

/-- Scheduling oracle under which every future is already done whenever it is
observed. -/
def stDone : Nat → Nat → FutState := fun _ _ => FutState.done

/-- Scheduling oracle under which every observed future is still pending. -/
def stPending : Nat → Nat → FutState := fun _ _ => FutState.pending

/-- Sample file data used by concrete witnesses and counterexamples. -/
def fdA : FileData := { mtime := 100, size := 4, content := [10, 11, 12, 13] }

/-- Sample file data: same stat as `fdA`, different content. -/
def fdB : FileData := { mtime := 100, size := 4, content := [10, 11, 12, 99] }

/-- Sample file data: different size. -/
def fdC : FileData := { mtime := 100, size := 7, content := [1, 2, 3, 4, 5, 6, 7] }

/-- Strict character-list comparison is asymmetric. -/
theorem charsLtb_asymm : ∀ {l m : List Char}, charsLtb l m = true → charsLtb m l = false := by
  intro l
  induction l with
  | nil =>
    intro m h
    cases m with
    | nil => simp [charsLtb] at h
    | cons d ds => simp [charsLtb]
  | cons c cs ih =>
    intro m h
    cases m with
    | nil => simp [charsLtb] at h
    | cons d ds =>
      simp only [charsLtb] at h ⊢
      rcases lt_trichotomy c d with hlt | heq | hgt
      · rw [if_neg (lt_asymm hlt), if_pos hlt]
      · subst heq
        rw [if_neg (lt_irrefl c), if_neg (lt_irrefl c)] at h ⊢
        exact ih h
      · rw [if_neg (lt_asymm hgt), if_pos hgt] at h
        simp at h

/-- Strict character-list comparison is transitive. -/
theorem charsLtb_trans :
    ∀ {l m n : List Char}, charsLtb l m = true → charsLtb m n = true → charsLtb l n = true := by
  intro l
  induction l with
  | nil =>
    intro m n h1 h2
    cases m with
    | nil => simp [charsLtb] at h1
    | cons d ds =>
      cases n with
      | nil => simp [charsLtb] at h2
      | cons e es => simp [charsLtb]
  | cons c cs ih =>
    intro m n h1 h2
    cases m with
    | nil => simp [charsLtb] at h1
    | cons d ds =>
      cases n with
      | nil => simp [charsLtb] at h2
      | cons e es =>
        simp only [charsLtb] at h1 h2 ⊢
        rcases lt_trichotomy c d with hcd | hcd | hcd
        · rcases lt_trichotomy d e with hde | hde | hde
          · rw [if_pos (lt_trans hcd hde)]
          · subst hde
            rw [if_pos hcd]
          · rw [if_neg (lt_asymm hde), if_pos hde] at h2
            simp at h2
        · subst hcd
          rcases lt_trichotomy c e with hce | hce | hce
          · rw [if_pos hce]
          · subst hce
            rw [if_neg (lt_irrefl c), if_neg (lt_irrefl c)] at h1 h2 ⊢
            exact ih h1 h2
          · rw [if_neg (lt_asymm hce), if_pos hce] at h2
            simp at h2
        · rw [if_neg (lt_asymm hcd), if_pos hcd] at h1
          simp at h1

/-- Strict character-list comparison relates any two distinct lists. -/
theorem charsLtb_connex :
    ∀ {l m : List Char}, l ≠ m → charsLtb l m = true ∨ charsLtb m l = true := by
  intro l
  induction l with
  | nil =>
    intro m h
    cases m with
    | nil => exact absurd rfl h
    | cons d ds => left; simp [charsLtb]
  | cons c cs ih =>
    intro m h
    cases m with
    | nil => right; simp [charsLtb]
    | cons d ds =>
      rcases lt_trichotomy c d with hcd | hcd | hcd
      · left; simp [charsLtb, hcd]
      · subst hcd
        have htl : cs ≠ ds := fun he => h (by rw [he])
        rcases ih htl with h3 | h3
        · left; simp [charsLtb, lt_irrefl, h3]
        · right; simp [charsLtb, lt_irrefl, h3]
      · right; simp [charsLtb, hcd, lt_asymm hcd]

/-- The sorting relation is total. -/
theorem strLeProp_total : ∀ a b : String, strLeProp a b ∨ strLeProp b a := by
  intro a b
  unfold strLeProp strLe
  by_cases h : charsLtb b.data a.data = true
  · right
    simp [charsLtb_asymm h]
  · left
    simp [Bool.not_eq_true] at h
    simp [h]

/-- The sorting relation is transitive. -/
theorem strLeProp_trans : ∀ a b c : String, strLeProp a b → strLeProp b c → strLeProp a c := by
  intro a b c hab hbc
  unfold strLeProp strLe at hab hbc ⊢
  simp only [Bool.not_eq_true', Bool.not_eq_true] at hab hbc ⊢
  by_cases hca : charsLtb c.data a.data = true
  · exfalso
    by_cases hbceq : b.data = c.data
    · rw [hbceq] at hab
      rw [hab] at hca
      simp at hca
    · rcases charsLtb_connex hbceq with h3 | h3
      · have h4 := charsLtb_trans h3 hca
        rw [h4] at hab
        simp at hab
      · rw [h3] at hbc
        simp at hbc
  · simpa using hca

/-- The three-way comparison of the source equals the sign of the difference. -/
theorem compare_eq_sign (a b : Int) : DirectoryComparer._compare a b = (a - b).sign := by
  unfold DirectoryComparer._compare
  rcases lt_trichotomy a b with h | h | h
  · rw [if_neg (by omega), if_pos (by omega)]
    exact (Int.sign_eq_neg_one_iff_neg.mpr (by omega)).symm
  · subst h
    rw [if_neg (by omega), if_neg (by omega)]
    simp
  · rw [if_pos (by omega)]
    exact (Int.sign_eq_one_iff_pos.mpr (by omega)).symm

/-- The result a slot eventually delivers does not depend on the future
identifier. -/
theorem mkItem_result (dir1_files dir2_files : List (String × FileData)) (id : Nat)
    (rel_path : String) :
    (DirectoryComparer.mkItem dir1_files dir2_files id rel_path).result
      = DirectoryComparer.recordFor dir1_files dir2_files rel_path := by
  unfold DirectoryComparer.recordFor DirectoryComparer.mkItem
  cases hb1 : (List.lookup rel_path dir1_files).isSome <;>
    cases hb2 : (List.lookup rel_path dir2_files).isSome <;>
      simp [hb1, hb2, QueueItem.result]

/-- Every dispatched record carries the relative path it was dispatched for. -/
theorem recordFor_path (dir1_files dir2_files : List (String × FileData)) (rel_path : String) :
    (DirectoryComparer.recordFor dir1_files dir2_files rel_path).relative_path = rel_path := by
  unfold DirectoryComparer.recordFor DirectoryComparer.mkItem
  cases hb1 : (List.lookup rel_path dir1_files).isSome <;>
    cases hb2 : (List.lookup rel_path dir2_files).isSome <;>
      simp [hb1, hb2, QueueItem.result, DirectoryComparer._compare_file_pair]

/-- Records built by the pair comparator satisfy the record invariants. -/
theorem compare_file_pair_invariant (rel_path : String) (file1 file2 : FileData) :
    recordInvariant (DirectoryComparer._compare_file_pair rel_path file1 file2) := by
  unfold recordInvariant DirectoryComparer._compare_file_pair
  by_cases hsz : DirectoryComparer._compare file1.size file2.size = 0
  · simp [hsz, FileComparisonResult.IN_BOTH, FileComparisonResult.ONLY_IN_DIR1,
      FileComparisonResult.ONLY_IN_DIR2]
  · simp [hsz, FileComparisonResult.IN_BOTH, FileComparisonResult.ONLY_IN_DIR1,
      FileComparisonResult.ONLY_IN_DIR2]

/-- Every dispatched record satisfies the record invariants. -/
theorem recordFor_invariant (dir1_files dir2_files : List (String × FileData))
    (rel_path : String) :
    recordInvariant (DirectoryComparer.recordFor dir1_files dir2_files rel_path) := by
  unfold DirectoryComparer.recordFor DirectoryComparer.mkItem
  cases hb1 : (List.lookup rel_path dir1_files).isSome <;>
    cases hb2 : (List.lookup rel_path dir2_files).isSome <;>
      simp only [hb1, hb2, Bool.not_true, Bool.not_false, Bool.and_true, Bool.and_false,
        Bool.true_and, Bool.false_and, Bool.and_self, if_true, if_false, QueueItem.result] <;>
      first
      | exact compare_file_pair_invariant rel_path _ _
      | simp [recordInvariant, FileComparisonResult.IN_BOTH,
          FileComparisonResult.ONLY_IN_DIR1, FileComparisonResult.ONLY_IN_DIR2]

/-- Draining preserves the slot results: the yielded prefix followed by the
results still queued is exactly the results of the original queue. -/
theorem yield_from_queue_append (st : Nat → FutState) (stop : Bool) :
    ∀ q : List QueueItem,
      (DirectoryComparer.yield_from_queue st stop q).1
          ++ ((DirectoryComparer.yield_from_queue st stop q).2.1).map QueueItem.result
        = q.map QueueItem.result := by
  intro q
  induction q with
  | nil => simp [DirectoryComparer.yield_from_queue]
  | cons item rest ih =>
    cases item with
    | ready r => simp [DirectoryComparer.yield_from_queue, QueueItem.result, ih]
    | fut id r =>
      by_cases h : (stop && (st id == FutState.running)) = true
      · simp [DirectoryComparer.yield_from_queue, h, QueueItem.result]
      · simp [DirectoryComparer.yield_from_queue, h, QueueItem.result, ih]

/-- The final drain (`stop_at_running_task=False`) consumes the whole queue. -/
theorem yield_from_queue_false_nil (st : Nat → FutState) :
    ∀ q : List QueueItem, (DirectoryComparer.yield_from_queue st false q).2.1 = [] := by
  intro q
  induction q with
  | nil => simp [DirectoryComparer.yield_from_queue]
  | cons item rest ih =>
    cases item with
    | ready r => simpa [DirectoryComparer.yield_from_queue] using ih
    | fut id r => simpa [DirectoryComparer.yield_from_queue] using ih

/-- The dispatch loop preserves slot results: what it yields followed by what
is still queued is the carried-over queue followed by one record per path, in
path order. -/
theorem iterLoop_append (st : Nat → Nat → FutState)
    (dir1_files dir2_files : List (String × FileData)) :
    ∀ (paths : List String) (step : Nat) (queue : List QueueItem),
      (DirectoryComparer.iterLoop st dir1_files dir2_files paths step queue).1
          ++ ((DirectoryComparer.iterLoop st dir1_files dir2_files paths step queue).2).map
            QueueItem.result
        = queue.map QueueItem.result
            ++ paths.map (DirectoryComparer.recordFor dir1_files dir2_files) := by
  intro paths
  induction paths with
  | nil => intro step queue; simp [DirectoryComparer.iterLoop]
  | cons rel_path rest ih =>
    intro step queue
    simp only [DirectoryComparer.iterLoop, List.append_assoc, List.map_cons]
    rw [ih]
    rw [← List.append_assoc, yield_from_queue_append]
    simp [mkItem_result]

/-- Closed form of the iterator: regardless of the scheduling oracle, the
stream is exactly one record per path of the sorted key union, in order. -/
theorem iter_eq (dir1_files dir2_files : List (String × FileData)) (st : Nat → Nat → FutState) :
    DirectoryComparer.iter dir1_files dir2_files st
      = (sortedUnion (dir1_files.map Prod.fst) (dir2_files.map Prod.fst)).map
          (DirectoryComparer.recordFor dir1_files dir2_files) := by
  simp only [DirectoryComparer.iter]
  have h1 := iterLoop_append st dir1_files dir2_files
    (sortedUnion (dir1_files.map Prod.fst) (dir2_files.map Prod.fst)) 0 []
  have h2 := yield_from_queue_append
    (st (sortedUnion (dir1_files.map Prod.fst) (dir2_files.map Prod.fst)).length) false
    (DirectoryComparer.iterLoop st dir1_files dir2_files
      (sortedUnion (dir1_files.map Prod.fst) (dir2_files.map Prod.fst)) 0 []).2
  rw [yield_from_queue_false_nil] at h2
  simp only [List.map_nil, List.append_nil, List.nil_append] at h1 h2
  rw [h2, h1]

/-- C1: For every pair of input trees, the record sequence yielded by
`__iter__` visits exactly the sorted union of the two key sets: the emitted
relative paths equal `sorted(set(keys1) | set(keys2))`, which is sorted in
the lexicographic string order, has no duplicate, and is a permutation of
the deduplicated union of the key lists.  The statement holds for every
scheduling oracle `st` and its right-hand side does not mention `st`, so the
sequence is independent of worker-pool size and completion order. -/
theorem iter_yields_sorted_union (dir1_files dir2_files : List (String × FileData))
    (st : Nat → Nat → FutState) :
    (DirectoryComparer.iter dir1_files dir2_files st).map FileComparisonResult.relative_path
        = sortedUnion (dir1_files.map Prod.fst) (dir2_files.map Prod.fst) ∧
    List.Sorted strLeProp (sortedUnion (dir1_files.map Prod.fst) (dir2_files.map Prod.fst)) ∧
    (sortedUnion (dir1_files.map Prod.fst) (dir2_files.map Prod.fst)).Nodup ∧
    (sortedUnion (dir1_files.map Prod.fst) (dir2_files.map Prod.fst)).Perm
      ((dir1_files.map Prod.fst ++ dir2_files.map Prod.fst).dedup) := by
  haveI : IsTotal String strLeProp := ⟨strLeProp_total⟩
  haveI : IsTrans String strLeProp := ⟨strLeProp_trans⟩
  refine ⟨?_, ?_, ?_, ?_⟩
  · rw [iter_eq, List.map_map]
    have hcomp : (FileComparisonResult.relative_path
        ∘ DirectoryComparer.recordFor dir1_files dir2_files) = id :=
      funext fun p => recordFor_path dir1_files dir2_files p
    rw [hcomp, List.map_id]
  · exact List.sorted_insertionSort strLeProp _
  · exact (List.perm_insertionSort strLeProp _).nodup_iff.mpr (List.nodup_dedup _)
  · exact List.perm_insertionSort strLeProp _

/-- C8: On unchanged input trees, the record sequence and the accumulated
summary are identical across runs under any two scheduling oracles; since
every worker-pool size and completion timing is some oracle, repeated runs
agree regardless of parallelism. -/
theorem iter_deterministic (dir1_files dir2_files : List (String × FileData))
    (st st' : Nat → Nat → FutState) :
    DirectoryComparer.iter dir1_files dir2_files st
        = DirectoryComparer.iter dir1_files dir2_files st' ∧
    summaryOf (DirectoryComparer.iter dir1_files dir2_files st)
        = summaryOf (DirectoryComparer.iter dir1_files dir2_files st') := by
  have h := iter_eq dir1_files dir2_files st
  have h' := iter_eq dir1_files dir2_files st'
  constructor
  · rw [h, h']
  · rw [h, h']

/-- C3: Every record the iterator hands to the consumer satisfies the record
invariants: a `Both` record has both stat comparisons set and a content
verdict exactly when the sizes compared equal; a one-sided record has all
three comparison fields unset. -/
theorem iter_record_invariant (dir1_files dir2_files : List (String × FileData))
    (st : Nat → Nat → FutState) (r : FileComparisonResult)
    (h : r ∈ DirectoryComparer.iter dir1_files dir2_files st) : recordInvariant r := by
  rw [iter_eq] at h
  obtain ⟨p, _, rfl⟩ := List.mem_map.mp h
  exact recordFor_invariant dir1_files dir2_files p

/-- Witness for C3: the record emitted for a left-only file in a concrete run
satisfies the invariants. -/
theorem iter_record_invariant_witness :
    recordInvariant { relative_path := "a.txt", classification := 1 } :=
  iter_record_invariant [("a.txt", fdA)] [] stDone
    { relative_path := "a.txt", classification := 1 } (by decide)

/-- C4: For any two files sharing a relative path, the pair comparator
produces a `Both` record whose stat comparisons are the signs of the mtime
and size differences; when the sizes compare equal the content verdict is
exact byte-for-byte equality of the full contents, and when they differ the
verdict is unset and the record does not depend on the contents at all (the
contents are never read). -/
theorem compare_file_pair_spec (rel_path : String) (file1 file2 : FileData) :
    (DirectoryComparer._compare_file_pair rel_path file1 file2).classification
        = FileComparisonResult.IN_BOTH ∧
    (DirectoryComparer._compare_file_pair rel_path file1 file2).modified_time_comparison
        = some (file1.mtime - file2.mtime).sign ∧
    (DirectoryComparer._compare_file_pair rel_path file1 file2).size_comparison
        = some (file1.size - file2.size).sign ∧
    ((DirectoryComparer._compare_file_pair rel_path file1 file2).size_comparison = some 0 →
      (DirectoryComparer._compare_file_pair rel_path file1 file2).is_content_same
          = some (decide (file1.content = file2.content))) ∧
    ((DirectoryComparer._compare_file_pair rel_path file1 file2).size_comparison ≠ some 0 →
      (DirectoryComparer._compare_file_pair rel_path file1 file2).is_content_same = none ∧
      ∀ c1 c2 : List Nat,
        DirectoryComparer._compare_file_pair rel_path
            { file1 with content := c1 } { file2 with content := c2 }
          = DirectoryComparer._compare_file_pair rel_path file1 file2) := by
  have hszeq : (DirectoryComparer._compare_file_pair rel_path file1 file2).size_comparison
      = some (DirectoryComparer._compare file1.size file2.size) := rfl
  refine ⟨rfl, ?_, ?_, ?_, ?_⟩
  · simp [DirectoryComparer._compare_file_pair, compare_eq_sign]
  · simp [DirectoryComparer._compare_file_pair, compare_eq_sign]
  · intro h
    rw [hszeq] at h
    have h0 := Option.some.inj h
    simp [DirectoryComparer._compare_file_pair, h0]
  · intro h
    have h0 : ¬ DirectoryComparer._compare file1.size file2.size = 0 := by
      intro hc
      exact h (by rw [hszeq, hc])
    refine ⟨?_, ?_⟩
    · simp [DirectoryComparer._compare_file_pair, h0]
    · intro c1 c2
      simp [DirectoryComparer._compare_file_pair, h0]

/-- Witness for C4 at a concrete pair with equal mtimes and differing sizes. -/
theorem compare_file_pair_spec_witness :
    (DirectoryComparer._compare_file_pair ("f.txt") fdA fdC).classification
        = FileComparisonResult.IN_BOTH ∧
    (DirectoryComparer._compare_file_pair ("f.txt") fdA fdC).modified_time_comparison
        = some (fdA.mtime - fdC.mtime).sign ∧
    (DirectoryComparer._compare_file_pair ("f.txt") fdA fdC).size_comparison
        = some (fdA.size - fdC.size).sign ∧
    ((DirectoryComparer._compare_file_pair ("f.txt") fdA fdC).size_comparison = some 0 →
      (DirectoryComparer._compare_file_pair ("f.txt") fdA fdC).is_content_same
          = some (decide (fdA.content = fdC.content))) ∧
    ((DirectoryComparer._compare_file_pair ("f.txt") fdA fdC).size_comparison ≠ some 0 →
      (DirectoryComparer._compare_file_pair ("f.txt") fdA fdC).is_content_same = none ∧
      ∀ c1 c2 : List Nat,
        DirectoryComparer._compare_file_pair ("f.txt")
            { fdA with content := c1 } { fdC with content := c2 }
          = DirectoryComparer._compare_file_pair ("f.txt") fdA fdC) :=
  compare_file_pair_spec ("f.txt") fdA fdC

/-- C2: The per-append drain does not stop for a future that is merely
submitted but not yet started.  The source guard is
`stop_at_running_task and first_item.running()`, while its own comment says
it should check whether the future is done without blocking: a `PENDING`
future reports `running() == False` and `done() == False`, so the drain pops
it and `result()` blocks on an unfinished comparison, contradicting the
claim that the drain stops at any not-yet-completed head without blocking.
Here the head future of the queue is pending, yet the drain yields it and
the blocking flag is set. -/
theorem drain_pops_pending_head :
    DirectoryComparer.yield_from_queue (fun _ => FutState.pending) true
        [QueueItem.fut 0 (DirectoryComparer._compare_file_pair ("a.txt") fdA fdA)]
      = ([DirectoryComparer._compare_file_pair ("a.txt") fdA fdA], [], true) := by decide

/-- C5: A comparison that fails because a file vanished between scan and
comparison aborts the whole stream instead of degrading one record.  Both
trees share `a.txt` and `b.txt`; at comparison time `Path.stat()` raises
`OSError` for `a.txt` on the left side.  The run yields no record at all:
no degraded record for `a.txt`, and `b.txt` is never emitted, because the
exception re-raised by `Future.result()` propagates out of the generator
(only `KeyboardInterrupt` is handled in `main`). -/
theorem comparison_error_aborts_stream :
    DirectoryComparer.iter_exc [("a.txt", fdA), ("b.txt", fdA)] [("a.txt", fdA), ("b.txt", fdA)]
        (fun p => if p = "a.txt" then none else some fdA) (fun _ => some fdA) stDone
      = ([], some PyErr.oserror) := by decide

/-- The three-way comparison only returns 1, -1 or 0. -/
theorem compare_cases (a b : Int) :
    DirectoryComparer._compare a b = 1 ∨ DirectoryComparer._compare a b = -1 ∨
      DirectoryComparer._compare a b = 0 := by
  unfold DirectoryComparer._compare
  rcases lt_trichotomy a b with h | h | h
  · right; left
    rw [if_neg (by omega), if_pos (by omega)]
  · subst h
    right; right
    rw [if_neg (by omega), if_neg (by omega)]
  · left
    rw [if_pos (by omega)]

/-- C6 counterexample: an identical pair (equal mtime, size and content) is
counted in `in_both` but in none of the four sub-counters, so the
sub-counters do not cover all `Both` records. -/
theorem summary_identical_gap_cex :
    (ComparisonSummary.init.update (DirectoryComparer._compare_file_pair ("a.txt") fdA fdA)).in_both
        = 1 ∧
    (ComparisonSummary.init.update
        (DirectoryComparer._compare_file_pair ("a.txt") fdA fdA)).dir1_newer = 0 ∧
    (ComparisonSummary.init.update
        (DirectoryComparer._compare_file_pair ("a.txt") fdA fdA)).dir2_newer = 0 ∧
    (ComparisonSummary.init.update
        (DirectoryComparer._compare_file_pair ("a.txt") fdA fdA)).same_time_diff_size = 0 ∧
    (ComparisonSummary.init.update
        (DirectoryComparer._compare_file_pair ("a.txt") fdA fdA)).same_time_size_diff_content
        = 0 := by decide

/-- C6 amended: the four `Both` sub-counters are mutually exclusive but do
not cover identical records: updating the summary with a pair-comparator
record always increments `in_both` and increments the four sub-counters by a
total of exactly one when the record is not identical, and by zero when it
is identical. -/
theorem summary_update_partition (s : ComparisonSummary) (rel_path : String)
    (file1 file2 : FileData) :
    (s.update (DirectoryComparer._compare_file_pair rel_path file1 file2)).in_both
        = s.in_both + 1 ∧
    (s.update (DirectoryComparer._compare_file_pair rel_path file1 file2)).dir1_newer
        + (s.update (DirectoryComparer._compare_file_pair rel_path file1 file2)).dir2_newer
        + (s.update (DirectoryComparer._compare_file_pair rel_path file1 file2)).same_time_diff_size
        + (s.update (DirectoryComparer._compare_file_pair rel_path
            file1 file2)).same_time_size_diff_content
      = s.dir1_newer + s.dir2_newer + s.same_time_diff_size + s.same_time_size_diff_content
        + (if (DirectoryComparer._compare_file_pair rel_path file1 file2).is_identical = true
           then 0 else 1) := by
  have hm := compare_cases file1.mtime file2.mtime
  have hs := compare_cases file1.size file2.size
  rcases hm with hm | hm | hm <;> rcases hs with hs | hs | hs <;>
    by_cases hc : file1.content = file2.content <;>
      simp [ComparisonSummary.update, DirectoryComparer._compare_file_pair,
        FileComparisonResult.is_identical, FileComparisonResult.IN_BOTH,
        FileComparisonResult.ONLY_IN_DIR1, FileComparisonResult.ONLY_IN_DIR2,
        hm, hs, hc] <;> omega

/-- C7 counterexample: an existing but unreadable root directory is not
caught by any pre-check.  The left root is a directory containing `a.txt`
but is unreadable; `Path.is_dir()` still returns `True`, `os.walk` silently
swallows the scandir failure, and the run completes the comparison and emits
a record (for the right side's `b.txt`) instead of failing with an
access-error fault before any comparison. -/
theorem unreadable_root_runs_cex :
    (main_model
        { is_dir := true, readable := false,
          tree := FSTree.node (FSEntries.file ("a.txt") fdA FSEntries.nil) }
        { is_dir := true, readable := true,
          tree := FSTree.node (FSEntries.file ("b.txt") fdA FSEntries.nil) }
        stDone).isPrecheckError = false ∧
    main_model
        { is_dir := true, readable := false,
          tree := FSTree.node (FSEntries.file ("a.txt") fdA FSEntries.nil) }
        { is_dir := true, readable := true,
          tree := FSTree.node (FSEntries.file ("b.txt") fdA FSEntries.nil) }
        stDone
      = MainOutcome.completed [{ relative_path := "b.txt", classification := 2 }] := by decide

/-- C7 amended: `main` fails during the pre-check, before any comparison,
exactly when one of the roots is not a directory; with both roots passing
`is_dir` the comparison always runs, and an unreadable root contributes an
empty file mapping (its scandir failure is silently swallowed) instead of
any fault. -/
theorem main_precheck_spec (dir1 dir2 : RootDir) (st : Nat → Nat → FutState) :
    (main_model dir1 dir2 st).isPrecheckError = (!dir1.is_dir || !dir2.is_dir) ∧
    (dir1.is_dir = true → dir2.is_dir = true →
      main_model dir1 dir2 st = MainOutcome.completed (DirectoryComparer.iter
        (DirectoryComparer._get_files_in_directory dir1)
        (DirectoryComparer._get_files_in_directory dir2) st)) ∧
    (dir1.readable = false → DirectoryComparer._get_files_in_directory dir1 = []) := by
  refine ⟨?_, ?_, ?_⟩
  · cases h1 : dir1.is_dir <;> cases h2 : dir2.is_dir <;>
      simp [main_model, MainOutcome.isPrecheckError, h1, h2]
  · intro h1 h2
    simp [main_model, h1, h2]
  · intro h1
    simp [DirectoryComparer._get_files_in_directory, h1]

/-- Witness for C7's amended statement at concrete roots (left readable,
right not a directory). -/
theorem main_precheck_spec_witness :
    (main_model
        { is_dir := true, readable := true,
          tree := FSTree.node (FSEntries.file ("a.txt") fdA FSEntries.nil) }
        { is_dir := false, readable := false,
          tree := FSTree.node FSEntries.nil }
        stDone).isPrecheckError
      = (!({ is_dir := true, readable := true,
             tree := FSTree.node (FSEntries.file ("a.txt") fdA FSEntries.nil) } : RootDir).is_dir
         || !({ is_dir := false, readable := false,
                tree := FSTree.node FSEntries.nil } : RootDir).is_dir) ∧
    (({ is_dir := false, readable := false,
        tree := FSTree.node FSEntries.nil } : RootDir).readable = false →
      DirectoryComparer._get_files_in_directory
          { is_dir := false, readable := false, tree := FSTree.node FSEntries.nil } = []) := by
  refine ⟨?_, ?_⟩
  · exact (main_precheck_spec
      { is_dir := true, readable := true,
        tree := FSTree.node (FSEntries.file ("a.txt") fdA FSEntries.nil) }
      { is_dir := false, readable := false, tree := FSTree.node FSEntries.nil } stDone).1
  · exact fun h => (main_precheck_spec
      { is_dir := false, readable := false, tree := FSTree.node FSEntries.nil }
      { is_dir := false, readable := false, tree := FSTree.node FSEntries.nil } stDone).2.2 h

/-- C10: Every `max_workers` value not greater than zero (negative values
included) is accepted by the constructor: the stored attribute is `None`,
identical to the documented `max_workers=0` case, and the pool is then
created with the implementation-default degree of parallelism. -/
theorem init_nonpositive_max_workers (max_workers : Int) (h : max_workers ≤ 0)
    (hostDefault : Int) :
    DirectoryComparer.initMaxWorkers max_workers = none ∧
    DirectoryComparer.initMaxWorkers max_workers = DirectoryComparer.initMaxWorkers 0 ∧
    DirectoryComparer.executorWorkers (DirectoryComparer.initMaxWorkers max_workers) hostDefault
        = hostDefault := by
  unfold DirectoryComparer.initMaxWorkers DirectoryComparer.executorWorkers
  rw [if_neg (by omega), if_neg (by omega)]
  exact ⟨rfl, rfl, rfl⟩

/-- Witness for C10 at `max_workers = -3` with host default 8. -/
theorem init_nonpositive_max_workers_witness :
    DirectoryComparer.initMaxWorkers (-3) = none ∧
    DirectoryComparer.initMaxWorkers (-3) = DirectoryComparer.initMaxWorkers 0 ∧
    DirectoryComparer.executorWorkers (DirectoryComparer.initMaxWorkers (-3)) 8 = 8 :=
  init_nonpositive_max_workers (-3) (by decide) 8

mutual
/-- Membership in the walk of a tree is reachability in that tree. -/
theorem walkFiles_mem : ∀ (t : FSTree) (p : List String) (d : FileData),
    (p, d) ∈ walkFiles t ↔ reachableT t p d
  | .node entries, p, d => by
    rw [show walkFiles (FSTree.node entries) = walkEntries entries from rfl]
    exact walkEntries_mem entries p d
/-- Membership in the walk of a listing is reachability through the listing. -/
theorem walkEntries_mem : ∀ (es : FSEntries) (p : List String) (d : FileData),
    (p, d) ∈ walkEntries es ↔ reachableE es p d
  | .nil, p, d => by simp [walkEntries, reachableE]
  | .file filename data rest, p, d => by
    simp only [walkEntries, List.mem_cons, reachableE, Prod.mk.injEq,
      walkEntries_mem rest p d]
  | .dir dirname tree rest, p, d => by
    simp only [walkEntries, List.mem_append, List.mem_map, reachableE,
      walkEntries_mem rest p d]
    constructor
    · rintro (⟨⟨q, d2⟩, hmem, heq⟩ | h)
      · obtain ⟨h1, h2⟩ := Prod.mk.inj heq
        subst h1
        subst h2
        exact Or.inl ⟨q, rfl, (walkFiles_mem tree q _).mp hmem⟩
      · exact Or.inr h
    · rintro (⟨q, hp, hr⟩ | h)
      · exact Or.inl ⟨(q, d), (walkFiles_mem tree q d).mpr hr, by rw [hp]⟩
      · exact Or.inr h
end

/-- C9: The scanner's mapping is complete and exact: a pair of relative path
and file data appears in the walk of a root tree exactly when that regular
file is reachable at that relative path by full recursive traversal.  Keys
are paths relative to the root by construction, only file entries ever
produce keys (directories are excluded), and no name-based filtering occurs,
so hidden files are included. -/
theorem scanner_complete (t : FSTree) (p : List String) (d : FileData) :
    (p, d) ∈ walkFiles t ↔ reachableT t p d :=
  walkFiles_mem t p d

/-- Witness for C9: a nested file in a concrete tree. -/
theorem scanner_complete_witness :
    ((["x", "z.txt"], fdB) ∈ walkFiles (FSTree.node (FSEntries.dir ("x")
          (FSTree.node (FSEntries.file ("z.txt") fdB FSEntries.nil)) FSEntries.nil))
      ↔ reachableT (FSTree.node (FSEntries.dir ("x")
          (FSTree.node (FSEntries.file ("z.txt") fdB FSEntries.nil)) FSEntries.nil))
          ["x", "z.txt"] fdB) :=
  scanner_complete (FSTree.node (FSEntries.dir ("x")
    (FSTree.node (FSEntries.file ("z.txt") fdB FSEntries.nil)) FSEntries.nil)) ["x", "z.txt"] fdB
